import Mathlib

/-!
Shallow embedding of the Bluetooth orchestrator
(`system/ui/lib/bluetooth_manager.py`) and its consumer-side operation
state machine (`system/ui/widgets/bluetooth.py`).

Pure functions of the source become Lean functions; the mutable state of
`BluetoothManager` and `BluetoothUI` becomes explicit state records, and
each method becomes a state-transition function.  Bus traffic is made
explicit: every method that talks to the bus also returns the list of bus
calls it issued, and takes the bus replies it consumes as arguments.
Threading is modelled by making each worker body a function of the state
it reads and the replies it receives; the callback queue, the sole
cross-thread handoff, is modelled as an explicit list of entries.
Transport exceptions (the `except` branches) are outside the model: an
environment describes executions in which every bus call returns a reply
(normal or error).
-/

/-- `DeviceType` from `bluetooth_manager.py` (an `IntEnum` in the source). -/
inductive DeviceType where
  | UNKNOWN
  | CONTROLLER
  | AUDIO
  | KEYBOARD
  | MOUSE
  | OTHER
deriving DecidableEq, Repr, BEq

/-- Python's substring test `needle in hay` on lists of characters. -/
def hasSubstr (hay needle : List Char) : Bool :=
  if needle.isPrefixOf hay then true
  else
    match hay with
    | [] => false
    | _ :: t => hasSubstr t needle

/-- Python's `needle in hay` for strings. -/
def strContains (hay needle : String) : Bool :=
  hasSubstr hay.toList needle.toList

/-- Python's `str.lower()`: lower-case every character (the library's
`String.toLower`, restated structurally over the character list). -/
def strLower (s : String) : String :=
  String.mk (s.data.map Char.toLower)

/-- `get_device_type` from `bluetooth_manager.py` lines 37-61, translated
clause by clause: substring matches on the lowered name first, then the
class bitfield (major class = bits 8-12, minor class = bits 2-7). -/
def get_device_type (device_class : Nat) (name : String) : DeviceType :=
  let name_lower := strLower name
  if strContains name_lower "controller" || strContains name_lower "dualsense"
      || strContains name_lower "dualshock" || strContains name_lower "gamepad" then
    DeviceType.CONTROLLER
  else if strContains name_lower "keyboard" then
    DeviceType.KEYBOARD
  else if strContains name_lower "mouse" then
    DeviceType.MOUSE
  else if strContains name_lower "airpods" || strContains name_lower "headphone"
      || strContains name_lower "speaker" || strContains name_lower "audio" then
    DeviceType.AUDIO
  else
    let major_class := (device_class >>> 8) &&& 0x1F
    if major_class == 0x05 then
      let minor_class := (device_class >>> 2) &&& 0x3F
      if minor_class == 0x01 || minor_class == 0x02 then DeviceType.CONTROLLER
      else if minor_class == 0x10 then DeviceType.KEYBOARD
      else if minor_class == 0x20 then DeviceType.MOUSE
      else DeviceType.OTHER
    else if major_class == 0x04 then DeviceType.AUDIO
    else DeviceType.OTHER

/-- The spec's classification procedure, written from the spec's words
(§3 DeviceType): an ordered keyword table tried first, then the class
bitfield decode.  Used only to compare against `get_device_type`. -/
def nameKeywordTable : List (List String × DeviceType) :=
  [ (["controller", "gamepad", "dualsense", "dualshock"], DeviceType.CONTROLLER),
    (["keyboard"], DeviceType.KEYBOARD),
    (["mouse"], DeviceType.MOUSE),
    (["airpods", "headphone", "speaker", "audio"], DeviceType.AUDIO) ]

/-- The spec's class-bitfield fallback: major class from bits 8-12, and
for the peripheral major class (0x05) a minor class from bits 2-7;
audio/video major class 0x04; everything unmatched is Other. -/
def classifyByClassSpec (device_class : Nat) : DeviceType :=
  let major := (device_class >>> 8) &&& 0x1F
  let minor := (device_class >>> 2) &&& 0x3F
  if major == 0x05 && (minor == 0x01 || minor == 0x02) then DeviceType.CONTROLLER
  else if major == 0x05 && minor == 0x10 then DeviceType.KEYBOARD
  else if major == 0x05 && minor == 0x20 then DeviceType.MOUSE
  else if major == 0x04 then DeviceType.AUDIO
  else DeviceType.OTHER

/-- The spec's whole classification: first keyword table in order, with
case-insensitive substring matching, then the bitfield fallback. -/
def classifySpec (device_class : Nat) (name : String) : DeviceType :=
  let nl := strLower name
  match nameKeywordTable.find? (fun e => e.1.any (fun kw => strContains nl kw)) with
  | some e => e.2
  | none => classifyByClassSpec device_class

/-- `BluetoothDevice` from `bluetooth_manager.py` lines 64-73. -/
structure BluetoothDevice where
  address : String
  name : String
  paired : Bool
  connected : Bool
  trusted : Bool
  device_type : DeviceType
  rssi : Int
  device_path : String
deriving DecidableEq, Repr, BEq

/-- A device property bag as delivered by the bus: each recognized key is
either absent or present with a value of its declared type.  This
abstracts the source's `dict` of `(type-tag, value)` pairs, restricted to
well-typed bags. -/
structure DeviceProps where
  Address : Option String := none
  Name : Option String := none
  Alias : Option String := none
  Paired : Option Bool := none
  Connected : Option Bool := none
  Trusted : Option Bool := none
  Class : Option Nat := none
  RSSI : Option Int := none
deriving DecidableEq, Repr

/-- `BluetoothDevice.from_dbus` from `bluetooth_manager.py` lines 75-94:
each `props.get(key, (tag, default))[1]` becomes `Option.getD`; the name
defaults to the alias and then to the (already defaulted) address. -/
def BluetoothDevice.from_dbus (device_path : String) (props : DeviceProps) : BluetoothDevice :=
  let address := props.Address.getD ""
  let name := props.Name.getD (props.Alias.getD address)
  let paired := props.Paired.getD false
  let connected := props.Connected.getD false
  let trusted := props.Trusted.getD false
  let device_class := props.Class.getD 0
  let rssi := props.RSSI.getD (-100)
  { address := address
    name := name
    paired := paired
    connected := connected
    trusted := trusted
    device_type := get_device_type device_class name
    rssi := rssi
    device_path := device_path }

/-! ## The callback dispatch queue -/

/-- The events a queued closure delivers to one registered consumer
callback, mirroring the five callback lists of `BluetoothManager`. -/
inductive CbEvent where
  | devicesUpdated (devices : List BluetoothDevice)
  | deviceConnected (device : BluetoothDevice)
  | deviceDisconnected (device : BluetoothDevice)
  | devicePaired (device : BluetoothDevice)
  | pairFailed (msg : String)
deriving DecidableEq, Repr

/-- One entry of `_callback_queue`: the closure `lambda: cb(*args)` is
modelled as the pair of the registered callback's identifier and the
event (callback kind + arguments) it will deliver. -/
abbrev CbEntry := Nat × CbEvent

/-- `_enqueue_callbacks` (lines 161-163): append one closure per
registered callback, in registration order, to the queue. -/
def enqueueCallbacks (queue : List CbEntry) (cbs : List Nat) (e : CbEvent) : List CbEntry :=
  queue ++ cbs.map (fun cb => (cb, e))

/-- One producer/consumer action on the callback queue. -/
inductive QueueAction where
  | enq (cbs : List Nat) (e : CbEvent)
  | drain
deriving Repr

/-- One step of the queue's life.  The state is
(current queue, closures executed so far).  `drain` is
`process_callbacks` (lines 165-168): the swap
`to_run, self._callback_queue = self._callback_queue, []` atomically
empties the queue, and every closure of the swapped-out list runs in
enqueue order; entries produced later (by later actions) land in the
fresh queue. -/
def stepQueue : List CbEntry × List CbEntry → QueueAction → List CbEntry × List CbEntry
  | (queue, executed), QueueAction.enq cbs e => (enqueueCallbacks queue cbs e, executed)
  | (queue, executed), QueueAction.drain => ([], executed ++ queue)

/-- Run a sequence of queue actions from a starting state. -/
def runQueue (s : List CbEntry × List CbEntry) (acts : List QueueAction) :
    List CbEntry × List CbEntry :=
  acts.foldl stepQueue s

/-! ## The manager state and registry refresh -/

/-- The mutable state of `BluetoothManager` that the modelled operations
read and write: the registry, the adapter path, the scanning flag, the
registered consumer callbacks (as abstract identifiers, one list per
callback kind) and the callback queue.  Threads, timers and the bus
connections themselves are not state here: bus traffic is explicit in
each operation's arguments and results. -/
structure BTManagerState where
  devices : List BluetoothDevice := []
  adapter_path : Option String := none
  scanning : Bool := false
  active : Bool := false
  devices_updated : List Nat := []
  device_connected : List Nat := []
  device_disconnected : List Nat := []
  device_paired : List Nat := []
  pair_failed : List Nat := []
  callback_queue : List CbEntry := []
deriving Repr

/-- A bus method reply: a normal reply or an error reply, each with its
body (the payload strings the code reads). -/
inductive Reply where
  | normal (body : List String)
  | error (body : List String)
deriving DecidableEq, Repr

/-- The reply to the object-manager enumeration `GetManagedObjects`: on
success, a list of (object path, device-interface property bag) where
`none` stands for an object not exposing the device interface. -/
inductive GetObjectsReply where
  | error (body : List String)
  | ok (objects : List (String × Option DeviceProps))
deriving Repr

/-- A bus call issued by the manager, recorded in the trace an operation
returns. -/
inductive BusCall where
  | setTrusted (path : String)
  | pairCall (path : String)
  | getManagedObjects
  | startDiscovery
  | stopDiscovery
deriving DecidableEq, Repr

/-- `error_msg = str(reply.body[0]) if reply.body else "Unknown error"`
(lines 333, 357, 376, 400). -/
def errorMessage (body : List String) : String :=
  match body with
  | [] => "Unknown error"
  | m :: _ => m

/-- The key Python sorts by on line 284:
`lambda d: (-d.connected, -d.paired, -d.rssi)` (booleans as 0/1
integers). -/
def sortKey (d : BluetoothDevice) : Int × Int × Int :=
  (-(if d.connected then (1 : Int) else 0), -(if d.paired then (1 : Int) else 0), -d.rssi)

/-- Lexicographic order on integer triples: Python's tuple comparison. -/
def lexLe (a b : Int × Int × Int) : Prop :=
  a.1 < b.1 ∨ (a.1 = b.1 ∧ (a.2.1 < b.2.1 ∨ (a.2.1 = b.2.1 ∧ a.2.2 ≤ b.2.2)))

instance lexLeDec (a b : Int × Int × Int) : Decidable (lexLe a b) := by
  unfold lexLe; infer_instance

/-- The comparison `devices.sort` orders by: ascending in the negated
key = descending in (connected, paired, rssi). -/
def devLe (a b : BluetoothDevice) : Prop :=
  lexLe (sortKey a) (sortKey b)

instance devLeDec : DecidableRel devLe := fun a b => by
  unfold devLe; infer_instance

/-- Lines 272-281 of `_update_devices`: keep objects exposing the device
interface, decode each bag, and keep only devices with a name that is
nonempty and different from the address. -/
def parseDevices (objects : List (String × Option DeviceProps)) : List BluetoothDevice :=
  objects.filterMap (fun po =>
    match po.2 with
    | some props =>
      let device := BluetoothDevice.from_dbus po.1 props
      if device.name ≠ "" ∧ device.name ≠ device.address then some device else none
    | none => none)

/-- Lines 269-284: parse, filter, and stable-sort by the priority key.
Python's `list.sort` is a stable sort; `insertionSort` is the stable
sort of the Lean library (any two stable sorts agree pointwise). -/
def refreshDevices (objects : List (String × Option DeviceProps)) : List BluetoothDevice :=
  (parseDevices objects).insertionSort devLe

/-- `_update_devices` (lines 256-289) as a state transition taking the
enumeration reply as input.  Returns the new state and the bus calls
issued: nothing happens without an adapter path; an error reply leaves
the state untouched; a successful enumeration replaces the registry
wholesale and enqueues one devices-updated closure per registered
callback. -/
def updateDevices (st : BTManagerState) (reply : GetObjectsReply) :
    BTManagerState × List BusCall :=
  match st.adapter_path with
  | none => (st, [])
  | some _ =>
    match reply with
    | GetObjectsReply.error _ => (st, [BusCall.getManagedObjects])
    | GetObjectsReply.ok objects =>
      let devices := refreshDevices objects
      ({ st with
          devices := devices
          callback_queue :=
            enqueueCallbacks st.callback_queue st.devices_updated
              (CbEvent.devicesUpdated devices) },
        [BusCall.getManagedObjects])

/-- `_get_device_by_path` (lines 250-254): first registry entry with the
given object path. -/
def getDeviceByPath (devices : List BluetoothDevice) (path : String) :
    Option BluetoothDevice :=
  devices.find? (fun device => device.device_path == path)

/-- The bus replies a `pair_device` worker consumes: the (ignored) reply
to setting the Trusted property, the reply to `Pair`, and — reached only
when `Pair` succeeded — the enumeration reply of the forced refresh. -/
structure PairEnv where
  trustedReply : Reply
  pairReply : Reply
  refreshReply : GetObjectsReply
deriving Repr

/-- The body of the `pair_device` worker (lines 321-348): trust the
device, call `Pair`; on an error reply decode the payload and enqueue
pair-failed closures and stop; on success force a refresh, re-look-up
the device by object path, and enqueue device-paired closures only when
the lookup finds it.  Note the worker never consults `adapter_path`. -/
def pairDeviceWorker (st : BTManagerState) (device : BluetoothDevice) (env : PairEnv) :
    BTManagerState × List BusCall :=
  let callTrace := [BusCall.setTrusted device.device_path, BusCall.pairCall device.device_path]
  match env.pairReply with
  | Reply.error body =>
    let error_msg := errorMessage body
    ({ st with
        callback_queue :=
          enqueueCallbacks st.callback_queue st.pair_failed (CbEvent.pairFailed error_msg) },
      callTrace)
  | Reply.normal _ =>
    let (st1, refreshTrace) := updateDevices st env.refreshReply
    match getDeviceByPath st1.devices device.device_path with
    | some updated_device =>
      ({ st1 with
          callback_queue :=
            enqueueCallbacks st1.callback_queue st1.device_paired
              (CbEvent.devicePaired updated_device) },
        callTrace ++ refreshTrace)
    | none => (st1, callTrace ++ refreshTrace)

/-- `start_scan` (lines 291-304): guarded no-op without an adapter path
or while already scanning; otherwise the worker issues `StartDiscovery`
and, when the call returns (`ok`), sets the scanning flag. -/
def startScan (st : BTManagerState) (ok : Bool) : BTManagerState × List BusCall :=
  if st.adapter_path = none ∨ st.scanning then (st, [])
  else if ok then ({ st with scanning := true }, [BusCall.startDiscovery])
  else (st, [BusCall.startDiscovery])

/-- `is_available` (lines 175-177). -/
def isAvailable (st : BTManagerState) : Bool :=
  st.adapter_path.isSome

/-! ## The consumer-side operation state machine -/

/-- `UIState` from `widgets/bluetooth.py` lines 27-33. -/
inductive UIState where
  | IDLE
  | PAIRING
  | CONNECTING
  | DISCONNECTING
  | SHOW_FORGET_CONFIRM
  | FORGETTING
deriving DecidableEq, Repr

/-- The state-machine-relevant state of `BluetoothUI`: the operation
state, its target device, and the latest snapshot.  Buttons, icons and
geometry are rendering concerns outside the model. -/
structure BluetoothUIState where
  state : UIState := UIState.IDLE
  state_device : Option BluetoothDevice := none
  devices : List BluetoothDevice := []
deriving DecidableEq, Repr

/-- A command the UI issues to the manager. -/
inductive BTCommand where
  | pair (device : BluetoothDevice)
  | connect (device : BluetoothDevice)
  | disconnect (device : BluetoothDevice)
  | forget (device : BluetoothDevice)
deriving DecidableEq, Repr

/-- `_connect_device` (lines 201-204): set Connecting(device) and issue
the connect command. -/
def connectDeviceUI (ui : BluetoothUIState) (device : BluetoothDevice) :
    BluetoothUIState × List BTCommand :=
  ({ ui with state := UIState.CONNECTING, state_device := some device },
    [BTCommand.connect device])

/-- `_on_devices_updated` (lines 222-257, minus button construction):
store the snapshot; then, if an operation is in flight and its target's
address is absent from the snapshot, reset to Idle with no target. -/
def onDevicesUpdated (ui : BluetoothUIState) (devices : List BluetoothDevice) :
    BluetoothUIState :=
  let ui1 := { ui with devices := devices }
  match ui1.state_device with
  | some sd =>
    if ui1.state ≠ UIState.IDLE ∧ ¬ devices.any (fun d => d.address == sd.address) then
      { ui1 with state := UIState.IDLE, state_device := none }
    else ui1
  | none => ui1

/-- `_on_device_paired` (lines 272-277): from Pairing, clear the state
and immediately auto-advance through `_connect_device`. -/
def onDevicePaired (ui : BluetoothUIState) (device : BluetoothDevice) :
    BluetoothUIState × List BTCommand :=
  if ui.state = UIState.PAIRING then
    connectDeviceUI { ui with state := UIState.IDLE, state_device := none } device
  else (ui, [])

/-- `_on_pair_failed` (lines 279-282): from Pairing, back to Idle. -/
def onPairFailed (ui : BluetoothUIState) (_error_msg : String) : BluetoothUIState :=
  if ui.state = UIState.PAIRING then
    { ui with state := UIState.IDLE, state_device := none }
  else ui

/-- The priority order of the registry (spec §3): greater-or-equal in
the lexicographic (connected, paired, signal strength) triple, i.e. the
snapshot is sorted with this relation between each element and every
later one (descending). -/
def priorityGe (a b : BluetoothDevice) : Prop :=
  lexLe ((if b.connected then (1 : Int) else 0), (if b.paired then (1 : Int) else 0), b.rssi)
    ((if a.connected then (1 : Int) else 0), (if a.paired then (1 : Int) else 0), a.rssi)

/-! ## Concrete sample data, used by witnesses and counterexamples -/

/-- A sample device. -/
def demoDevice : BluetoothDevice :=
  { address := "AA:11", name := "Demo Headset", paired := false, connected := false,
    trusted := false, device_type := DeviceType.AUDIO, rssi := -40,
    device_path := "/org/bluez/hci0/dev_AA_11" }

/-- A second sample device with a different address. -/
def demoDevice2 : BluetoothDevice :=
  { address := "BB:22", name := "Demo Mouse", paired := true, connected := false,
    trusted := false, device_type := DeviceType.MOUSE, rssi := -60,
    device_path := "/org/bluez/hci0/dev_BB_22" }

/-- A manager that never found an adapter, with one registered consumer
for each callback kind. -/
def noAdapterState : BTManagerState :=
  { devices_updated := [0], device_paired := [0], pair_failed := [0] }

/-- A manager with an adapter, an empty registry and one registered
consumer for each callback kind. -/
def adapterState : BTManagerState :=
  { adapter_path := some "/org/bluez/hci0",
    devices_updated := [0], device_paired := [0], pair_failed := [0] }

/-- A pair-worker environment in which `Pair` is rejected with the
payload "Authentication Failed". -/
def envPairAuthFail : PairEnv :=
  { trustedReply := Reply.normal [], pairReply := Reply.error ["Authentication Failed"],
    refreshReply := GetObjectsReply.ok [] }

/-- A pair-worker environment in which `Pair` is rejected with an empty
payload. -/
def envPairErrEmpty : PairEnv :=
  { trustedReply := Reply.normal [], pairReply := Reply.error [],
    refreshReply := GetObjectsReply.ok [] }

/-- A pair-worker environment in which `Pair` succeeds and the forced
refresh returns an enumeration without the paired device. -/
def envPairOkMiss : PairEnv :=
  { trustedReply := Reply.normal [], pairReply := Reply.normal [],
    refreshReply := GetObjectsReply.ok [] }

/-- Property bags for a sample enumeration: one well-named audio device,
one unnamed object (name defaults to the address, so it is dropped), and
two distinct keyboards with identical priority keys, to exercise
stability. -/
def demoObjects : List (String × Option DeviceProps) :=
  [ ("/org/bluez/hci0", none),
    ("/org/bluez/hci0/dev_AA_11",
      some { Address := some "AA:11", Name := some "Demo Headset", RSSI := some (-40) }),
    ("/org/bluez/hci0/dev_CC_33",
      some { Address := some "CC:33" }),
    ("/org/bluez/hci0/dev_DD_44",
      some { Address := some "DD:44", Name := some "Keyboard One", RSSI := some (-55) }),
    ("/org/bluez/hci0/dev_EE_55",
      some { Address := some "EE:55", Name := some "Keyboard Two", RSSI := some (-55) }) ]

/-! ## Helper lemmas -/

/-- `lexLe` is transitive. -/
theorem lexLe_trans {a b c : Int × Int × Int} (h1 : lexLe a b) (h2 : lexLe b c) : lexLe a c := by
  unfold lexLe at *
  omega

/-- `lexLe` is total. -/
theorem lexLe_total (a b : Int × Int × Int) : lexLe a b ∨ lexLe b a := by
  unfold lexLe
  omega

instance devLeTotal : IsTotal BluetoothDevice devLe :=
  ⟨fun a b => lexLe_total (sortKey a) (sortKey b)⟩

instance devLeTrans : IsTrans BluetoothDevice devLe :=
  ⟨fun _ _ _ h1 h2 => lexLe_trans h1 h2⟩

/-- `devLe` (ascending in the negated key) is exactly the descending
priority order. -/
theorem devLe_iff_priorityGe (a b : BluetoothDevice) : devLe a b ↔ priorityGe a b := by
  simp only [devLe, priorityGe, sortKey, lexLe]
  cases a.connected <;> cases a.paired <;> cases b.connected <;> cases b.paired <;> simp

/-- `devLe` holds between any two devices with the same sort key. -/
theorem devLe_of_sortKey_eq {a b : BluetoothDevice} (h : sortKey a = sortKey b) :
    devLe a b := by
  unfold devLe lexLe
  rw [h]
  exact Or.inr ⟨rfl, Or.inr ⟨rfl, le_refl _⟩⟩

/-- Inserting an element whose key equals `k` puts it in front of the
key-`k` elements already present: the filtered view gains it at the
head. -/
theorem filter_orderedInsert_key_eq (k : Int × Int × Int) (x : BluetoothDevice)
    (l : List BluetoothDevice) (hx : sortKey x = k) :
    (l.orderedInsert devLe x).filter (fun d => decide (sortKey d = k))
      = x :: l.filter (fun d => decide (sortKey d = k)) := by
  induction l with
  | nil => simp [hx]
  | cons y ys ih =>
    by_cases h : devLe x y
    · simp [List.orderedInsert, h, hx]
    · have hy : ¬ sortKey y = k := by
        intro hk
        exact h (devLe_of_sortKey_eq (hx.trans hk.symm))
      simp [List.orderedInsert, h, List.filter_cons, hy, ih]

/-- Inserting an element whose key differs from `k` does not disturb the
filtered view of the key-`k` elements. -/
theorem filter_orderedInsert_key_ne (k : Int × Int × Int) (x : BluetoothDevice)
    (l : List BluetoothDevice) (hx : ¬ sortKey x = k) :
    (l.orderedInsert devLe x).filter (fun d => decide (sortKey d = k))
      = l.filter (fun d => decide (sortKey d = k)) := by
  induction l with
  | nil => simp [hx]
  | cons y ys ih =>
    by_cases h : devLe x y
    · simp [List.orderedInsert, h, List.filter_cons, hx]
    · simp [List.orderedInsert, h, List.filter_cons, ih]

/-- Stability of the registry sort, as preservation of every
equal-key filtered view. -/
theorem filter_insertionSort_devLe (k : Int × Int × Int) (l : List BluetoothDevice) :
    (l.insertionSort devLe).filter (fun d => decide (sortKey d = k))
      = l.filter (fun d => decide (sortKey d = k)) := by
  induction l with
  | nil => rfl
  | cons x xs ih =>
    by_cases hx : sortKey x = k
    · rw [List.insertionSort, filter_orderedInsert_key_eq k x _ hx, ih,
        List.filter_cons_of_pos (by simpa using hx)]
    · rw [List.insertionSort, filter_orderedInsert_key_ne k x _ hx, ih,
        List.filter_cons_of_neg (by simpa using hx)]

/-- Every device kept by the parse/filter step of `_update_devices` has
a nonempty name different from its address. -/
theorem parseDevices_named (objects : List (String × Option DeviceProps))
    (d : BluetoothDevice) (hd : d ∈ parseDevices objects) :
    d.name ≠ "" ∧ d.name ≠ d.address := by
  simp only [parseDevices, List.mem_filterMap] at hd
  obtain ⟨po, _, hpo⟩ := hd
  rcases po with ⟨path, _ | props⟩
  · simp at hpo
  · simp only at hpo
    split at hpo
    · cases hpo
      assumption
    · cases hpo

/-! ## Claim theorems -/

/-- C5: two devices-updated callbacks enqueued before the consumer's
drain are both executed by a single `process_callbacks`, in enqueue
order, with no coalescing, and the queue afterwards holds exactly the
closures enqueued after the drain began. -/
theorem c5_two_updates_one_drain (cbs : List Nat) (s1 s2 s3 : List BluetoothDevice) :
    runQueue ([], [])
      [QueueAction.enq cbs (CbEvent.devicesUpdated s1),
        QueueAction.enq cbs (CbEvent.devicesUpdated s2),
        QueueAction.drain,
        QueueAction.enq cbs (CbEvent.devicesUpdated s3)]
      = (cbs.map (fun cb => (cb, CbEvent.devicesUpdated s3)),
          cbs.map (fun cb => (cb, CbEvent.devicesUpdated s1))
            ++ cbs.map (fun cb => (cb, CbEvent.devicesUpdated s2))) := by
  simp [runQueue, stepQueue, enqueueCallbacks, List.foldl]

/-- C3: from Pairing, a device-paired callback for `device` ends in
Connecting(device) — never Idle — and issues the connect command. -/
theorem c3_paired_advances_to_connecting (ui : BluetoothUIState) (device : BluetoothDevice)
    (h : ui.state = UIState.PAIRING) :
    (onDevicePaired ui device).1.state = UIState.CONNECTING ∧
    (onDevicePaired ui device).1.state_device = some device ∧
    (onDevicePaired ui device).2 = [BTCommand.connect device] ∧
    (onDevicePaired ui device).1.state ≠ UIState.IDLE := by
  simp [onDevicePaired, connectDeviceUI, h]

/-- Witness for C3 at a concrete Pairing state. -/
theorem c3_paired_advances_to_connecting_witness :
    (onDevicePaired { state := UIState.PAIRING, state_device := some demoDevice }
        demoDevice).1.state = UIState.CONNECTING ∧
    (onDevicePaired { state := UIState.PAIRING, state_device := some demoDevice }
        demoDevice).1.state_device = some demoDevice :=
  ⟨(c3_paired_advances_to_connecting _ demoDevice rfl).1,
    (c3_paired_advances_to_connecting _ demoDevice rfl).2.1⟩

/-- C2: from any non-Idle state targeting `sd`, a devices-updated
snapshot without `sd`'s address resets to Idle with no target; a
snapshot containing the address leaves the (state, target) pair
unchanged. -/
theorem c2_absent_target_resets (ui : BluetoothUIState) (sd : BluetoothDevice)
    (devices : List BluetoothDevice)
    (hsd : ui.state_device = some sd) (hne : ui.state ≠ UIState.IDLE) :
    ((∀ d ∈ devices, d.address ≠ sd.address) →
        (onDevicesUpdated ui devices).state = UIState.IDLE ∧
        (onDevicesUpdated ui devices).state_device = none) ∧
    ((∃ d ∈ devices, d.address = sd.address) →
        (onDevicesUpdated ui devices).state = ui.state ∧
        (onDevicesUpdated ui devices).state_device = ui.state_device) := by
  constructor
  · intro habs
    have hany : devices.any (fun d => d.address == sd.address) = false := by
      simp only [List.any_eq_false, beq_iff_eq]
      exact habs
    simp [onDevicesUpdated, hsd, hany, hne]
  · intro ⟨d, hd, haddr⟩
    have hany : devices.any (fun d => d.address == sd.address) = true := by
      simp only [List.any_eq_true, beq_iff_eq]
      exact ⟨d, hd, haddr⟩
    simp [onDevicesUpdated, hsd, hany]

/-- Witness for C2: a Pairing state whose target is missing from the
snapshot resets; one whose target is present is unchanged. -/
theorem c2_absent_target_resets_witness :
    ((onDevicesUpdated { state := UIState.PAIRING, state_device := some demoDevice }
        [demoDevice2]).state = UIState.IDLE ∧
      (onDevicesUpdated { state := UIState.PAIRING, state_device := some demoDevice }
        [demoDevice2]).state_device = none) ∧
    ((onDevicesUpdated { state := UIState.FORGETTING, state_device := some demoDevice }
        [demoDevice]).state = UIState.FORGETTING ∧
      (onDevicesUpdated { state := UIState.FORGETTING, state_device := some demoDevice }
        [demoDevice]).state_device = some demoDevice) :=
  ⟨(c2_absent_target_resets _ demoDevice [demoDevice2] rfl (by decide)).1
      (by intro d hd; simp only [List.mem_singleton] at hd; subst hd; decide),
    (c2_absent_target_resets
        { state := UIState.FORGETTING, state_device := some demoDevice }
        demoDevice [demoDevice] rfl (by decide)).2
      ⟨demoDevice, List.mem_singleton.mpr rfl, rfl⟩⟩

/-- C7: decoding a property bag always succeeds (the decoder is a total
function) and substitutes the documented default for every absent key:
address "", name = alias-or-address, flags false, class 0 (visible
through the classified type), signal -100. -/
theorem c7_from_dbus_defaults (path : String) (props : DeviceProps) :
    (props.Address = none → (BluetoothDevice.from_dbus path props).address = "") ∧
    (props.Name = none → ∀ a, props.Alias = some a →
        (BluetoothDevice.from_dbus path props).name = a) ∧
    (props.Name = none → props.Alias = none →
        (BluetoothDevice.from_dbus path props).name
          = (BluetoothDevice.from_dbus path props).address) ∧
    (props.Paired = none → (BluetoothDevice.from_dbus path props).paired = false) ∧
    (props.Connected = none → (BluetoothDevice.from_dbus path props).connected = false) ∧
    (props.Trusted = none → (BluetoothDevice.from_dbus path props).trusted = false) ∧
    (props.Class = none → (BluetoothDevice.from_dbus path props).device_type
        = get_device_type 0 (BluetoothDevice.from_dbus path props).name) ∧
    (props.RSSI = none → (BluetoothDevice.from_dbus path props).rssi = -100) := by
  refine ⟨?_, ?_, ?_, ?_, ?_, ?_, ?_, ?_⟩
  · intro h; simp [BluetoothDevice.from_dbus, h]
  · intro h a ha; simp [BluetoothDevice.from_dbus, h, ha]
  · intro h ha; simp [BluetoothDevice.from_dbus, h, ha]
  · intro h; simp [BluetoothDevice.from_dbus, h]
  · intro h; simp [BluetoothDevice.from_dbus, h]
  · intro h; simp [BluetoothDevice.from_dbus, h]
  · intro h; simp [BluetoothDevice.from_dbus, h]
  · intro h; simp [BluetoothDevice.from_dbus, h]

/-- Witness for C7: the empty bag decodes to all defaults, and a bag
holding only an alias names the device after the alias. -/
theorem c7_from_dbus_defaults_witness :
    (BluetoothDevice.from_dbus "/org/bluez/hci0/dev_X" {}).address = "" ∧
    (BluetoothDevice.from_dbus "/org/bluez/hci0/dev_X" {}).name
      = (BluetoothDevice.from_dbus "/org/bluez/hci0/dev_X" {}).address ∧
    (BluetoothDevice.from_dbus "/org/bluez/hci0/dev_X" {}).paired = false ∧
    (BluetoothDevice.from_dbus "/org/bluez/hci0/dev_X" {}).connected = false ∧
    (BluetoothDevice.from_dbus "/org/bluez/hci0/dev_X" {}).trusted = false ∧
    (BluetoothDevice.from_dbus "/org/bluez/hci0/dev_X" {}).device_type
      = get_device_type 0 (BluetoothDevice.from_dbus "/org/bluez/hci0/dev_X" {}).name ∧
    (BluetoothDevice.from_dbus "/org/bluez/hci0/dev_X" {}).rssi = -100 ∧
    (BluetoothDevice.from_dbus "/org/bluez/hci0/dev_X"
        { Alias := some "My Speaker" }).name = "My Speaker" :=
  ⟨(c7_from_dbus_defaults "/org/bluez/hci0/dev_X" {}).1 rfl,
    (c7_from_dbus_defaults "/org/bluez/hci0/dev_X" {}).2.2.1 rfl rfl,
    (c7_from_dbus_defaults "/org/bluez/hci0/dev_X" {}).2.2.2.1 rfl,
    (c7_from_dbus_defaults "/org/bluez/hci0/dev_X" {}).2.2.2.2.1 rfl,
    (c7_from_dbus_defaults "/org/bluez/hci0/dev_X" {}).2.2.2.2.2.1 rfl,
    (c7_from_dbus_defaults "/org/bluez/hci0/dev_X" {}).2.2.2.2.2.2.1 rfl,
    (c7_from_dbus_defaults "/org/bluez/hci0/dev_X" {}).2.2.2.2.2.2.2 rfl,
    (c7_from_dbus_defaults "/org/bluez/hci0/dev_X" { Alias := some "My Speaker" }).2.1
      rfl "My Speaker" rfl⟩

/-- C1: on a protocol-level error reply to `Pair`, the worker enqueues
exactly one pair-failed closure per registered pair-failed callback —
carrying the decoded payload message, with "Unknown error" for an empty
payload — enqueues nothing else (in particular no device-paired
closure), performs no refresh (registry unchanged, no enumeration call),
and the consumer's pair-failed handler takes Pairing back to Idle. -/
theorem c1_pair_error_reply (st : BTManagerState) (device : BluetoothDevice)
    (env : PairEnv) (body : List String) (h : env.pairReply = Reply.error body) :
    (pairDeviceWorker st device env).1.callback_queue
      = st.callback_queue
          ++ st.pair_failed.map (fun cb => (cb, CbEvent.pairFailed (errorMessage body))) ∧
    errorMessage [] = "Unknown error" ∧
    (pairDeviceWorker st device env).1.devices = st.devices ∧
    (pairDeviceWorker st device env).2
      = [BusCall.setTrusted device.device_path, BusCall.pairCall device.device_path] ∧
    (∀ ui : BluetoothUIState, ui.state = UIState.PAIRING →
        (onPairFailed ui (errorMessage body)).state = UIState.IDLE ∧
        (onPairFailed ui (errorMessage body)).state_device = none) := by
  refine ⟨?_, rfl, ?_, ?_, ?_⟩
  · simp [pairDeviceWorker, h, enqueueCallbacks]
  · simp [pairDeviceWorker, h]
  · simp [pairDeviceWorker, h]
  · intro ui hui
    simp [onPairFailed, hui]

/-- Witness for C1: one registered consumer, `Pair` rejected with
payload "Authentication Failed": exactly one pair-failed closure with
that message, registry untouched, no enumeration call, and the concrete
Pairing state returns to Idle. -/
theorem c1_pair_error_reply_witness :
    (pairDeviceWorker adapterState demoDevice envPairAuthFail).1.callback_queue
      = [(0, CbEvent.pairFailed "Authentication Failed")] ∧
    (pairDeviceWorker adapterState demoDevice envPairAuthFail).1.devices = [] ∧
    (pairDeviceWorker adapterState demoDevice envPairAuthFail).2
      = [BusCall.setTrusted "/org/bluez/hci0/dev_AA_11",
          BusCall.pairCall "/org/bluez/hci0/dev_AA_11"] ∧
    (onPairFailed { state := UIState.PAIRING, state_device := some demoDevice }
        "Authentication Failed").state = UIState.IDLE := by
  have h := c1_pair_error_reply adapterState demoDevice envPairAuthFail
    ["Authentication Failed"] rfl
  exact ⟨by simpa [adapterState] using h.1,
    by simpa [adapterState] using h.2.2.1,
    by simpa [demoDevice] using h.2.2.2.1,
    (h.2.2.2.2 { state := UIState.PAIRING, state_device := some demoDevice } rfl).1⟩

/-- C10: a refresh with no adapter path, or answered by an error reply,
leaves the whole manager state unchanged (registry kept, nothing
enqueued); only a successful enumeration replaces the registry and
enqueues devices-updated closures. -/
theorem c10_refresh_frame (st : BTManagerState) (reply : GetObjectsReply) :
    (st.adapter_path = none → updateDevices st reply = (st, [])) ∧
    (∀ body, st.adapter_path ≠ none → reply = GetObjectsReply.error body →
        updateDevices st reply = (st, [BusCall.getManagedObjects])) ∧
    (∀ objects, st.adapter_path ≠ none → reply = GetObjectsReply.ok objects →
        (updateDevices st reply).1.devices = refreshDevices objects ∧
        (updateDevices st reply).1.callback_queue
          = st.callback_queue
              ++ st.devices_updated.map
                (fun cb => (cb, CbEvent.devicesUpdated (refreshDevices objects)))) := by
  refine ⟨?_, ?_, ?_⟩
  · intro h
    simp [updateDevices, h]
  · intro body hne herr
    match hpath : st.adapter_path with
    | none => exact absurd hpath hne
    | some p => simp [updateDevices, hpath, herr]
  · intro objects hne hok
    match hpath : st.adapter_path with
    | none => exact absurd hpath hne
    | some p => simp [updateDevices, hpath, hok, enqueueCallbacks]

/-- Witness for C10: a no-adapter refresh and an error-reply refresh
leave a concrete state untouched; a successful empty enumeration
replaces the registry and enqueues the snapshot. -/
theorem c10_refresh_frame_witness :
    updateDevices noAdapterState (GetObjectsReply.ok demoObjects) = (noAdapterState, []) ∧
    updateDevices adapterState (GetObjectsReply.error ["boom"])
      = (adapterState, [BusCall.getManagedObjects]) ∧
    (updateDevices adapterState (GetObjectsReply.ok [])).1.devices = refreshDevices [] ∧
    (updateDevices adapterState (GetObjectsReply.ok [])).1.callback_queue
      = [(0, CbEvent.devicesUpdated (refreshDevices []))] := by
  have h1 := (c10_refresh_frame noAdapterState (GetObjectsReply.ok demoObjects)).1 rfl
  have h2 := (c10_refresh_frame adapterState (GetObjectsReply.error ["boom"])).2.1
    ["boom"] (by simp [adapterState]) rfl
  have h3 := (c10_refresh_frame adapterState (GetObjectsReply.ok [])).2.2
    [] (by simp [adapterState]) rfl
  exact ⟨h1, h2, h3.1, by simpa [adapterState] using h3.2⟩

/-- C9: when `Pair` succeeds but the forced refresh's registry no longer
holds the device's object path, the worker enqueues neither a
device-paired nor a pair-failed closure: the final state is exactly the
refreshed state, and every queue entry either predates the operation or
is a devices-updated closure from the refresh. -/
theorem c9_pair_success_lookup_miss (st : BTManagerState) (device : BluetoothDevice)
    (env : PairEnv) (body : List String) (h : env.pairReply = Reply.normal body)
    (hmiss : getDeviceByPath (updateDevices st env.refreshReply).1.devices
        device.device_path = none) :
    pairDeviceWorker st device env
      = ((updateDevices st env.refreshReply).1,
          [BusCall.setTrusted device.device_path, BusCall.pairCall device.device_path]
            ++ (updateDevices st env.refreshReply).2) ∧
    (∀ e ∈ (pairDeviceWorker st device env).1.callback_queue,
        e ∈ st.callback_queue ∨ ∃ s, e.2 = CbEvent.devicesUpdated s) := by
  have hmain : pairDeviceWorker st device env
      = ((updateDevices st env.refreshReply).1,
          [BusCall.setTrusted device.device_path, BusCall.pairCall device.device_path]
            ++ (updateDevices st env.refreshReply).2) := by
    simp [pairDeviceWorker, h, hmiss]
  refine ⟨hmain, ?_⟩
  intro e he
  rw [hmain] at he
  match hpath : st.adapter_path, hr : env.refreshReply with
  | none, _ =>
    simp [updateDevices, hpath] at he
    exact Or.inl he
  | some p, GetObjectsReply.error b =>
    simp [updateDevices, hpath, hr] at he
    exact Or.inl he
  | some p, GetObjectsReply.ok objects =>
    simp [updateDevices, hpath, hr, enqueueCallbacks] at he
    rcases he with he | ⟨cb, _, he⟩
    · exact Or.inl he
    · exact Or.inr ⟨refreshDevices objects, by simp [← he]⟩

/-- Witness for C9: a successful pair whose forced refresh returns an
empty bus enumeration — the refreshed registry lacks the device, so only
the refresh's devices-updated closure is enqueued. -/
theorem c9_pair_success_lookup_miss_witness :
    pairDeviceWorker adapterState demoDevice envPairOkMiss
      = ((updateDevices adapterState envPairOkMiss.refreshReply).1,
          [BusCall.setTrusted "/org/bluez/hci0/dev_AA_11",
            BusCall.pairCall "/org/bluez/hci0/dev_AA_11"]
            ++ (updateDevices adapterState envPairOkMiss.refreshReply).2) := by
  have h := (c9_pair_success_lookup_miss adapterState demoDevice envPairOkMiss [] rfl
    (by decide)).1
  simpa [demoDevice] using h

/-- C8: after a successful refresh the snapshot is sorted descending by
(connected, paired, signal strength); devices with equal keys keep
their enumeration order (the filtered view at every key value is
preserved — stability); and every snapshot member has a nonempty name
different from its address. -/
theorem c8_refresh_sorted_stable (st : BTManagerState) (p : String)
    (objects : List (String × Option DeviceProps)) (h : st.adapter_path = some p) :
    (updateDevices st (GetObjectsReply.ok objects)).1.devices.Pairwise priorityGe ∧
    (∀ k, (updateDevices st (GetObjectsReply.ok objects)).1.devices.filter
          (fun d => decide (sortKey d = k))
        = (parseDevices objects).filter (fun d => decide (sortKey d = k))) ∧
    (∀ d ∈ (updateDevices st (GetObjectsReply.ok objects)).1.devices,
        d.name ≠ "" ∧ d.name ≠ d.address) := by
  have hdev : (updateDevices st (GetObjectsReply.ok objects)).1.devices
      = refreshDevices objects := by
    simp [updateDevices, h]
  rw [hdev]
  unfold refreshDevices
  refine ⟨?_, ?_, ?_⟩
  · exact (List.sorted_insertionSort devLe (parseDevices objects)).imp
      (fun hab => (devLe_iff_priorityGe _ _).mp hab)
  · intro k
    exact filter_insertionSort_devLe k (parseDevices objects)
  · intro d hd
    exact parseDevices_named objects d ((List.mem_insertionSort devLe).mp hd)

/-- Witness for C8 on a concrete enumeration with an unnamed object and
two equal-key keyboards: the refreshed registry is sorted, keeps the
keyboards in enumeration order, and drops the unnamed object. -/
theorem c8_refresh_sorted_stable_witness :
    (updateDevices adapterState (GetObjectsReply.ok demoObjects)).1.devices.Pairwise
        priorityGe ∧
    (updateDevices adapterState (GetObjectsReply.ok demoObjects)).1.devices.filter
        (fun d => decide (sortKey d = ((0 : Int), (0 : Int), (55 : Int))))
      = (parseDevices demoObjects).filter
        (fun d => decide (sortKey d = ((0 : Int), (0 : Int), (55 : Int)))) ∧
    ((BluetoothDevice.from_dbus "/org/bluez/hci0/dev_DD_44"
          { Address := some "DD:44", Name := some "Keyboard One", RSSI := some (-55) }).name
        ≠ "" ∧
      (BluetoothDevice.from_dbus "/org/bluez/hci0/dev_DD_44"
          { Address := some "DD:44", Name := some "Keyboard One", RSSI := some (-55) }).name
        ≠ (BluetoothDevice.from_dbus "/org/bluez/hci0/dev_DD_44"
          { Address := some "DD:44", Name := some "Keyboard One", RSSI := some (-55) }).address) ∧
    (updateDevices adapterState (GetObjectsReply.ok demoObjects)).1.devices.map
        (fun d => (d.name, d.rssi))
      = [("Demo Headset", -40), ("Keyboard One", -55), ("Keyboard Two", -55)] := by
  have h := c8_refresh_sorted_stable adapterState "/org/bluez/hci0" demoObjects rfl
  have hlist : (updateDevices adapterState (GetObjectsReply.ok demoObjects)).1.devices
      = [BluetoothDevice.from_dbus "/org/bluez/hci0/dev_AA_11"
            { Address := some "AA:11", Name := some "Demo Headset", RSSI := some (-40) },
          BluetoothDevice.from_dbus "/org/bluez/hci0/dev_DD_44"
            { Address := some "DD:44", Name := some "Keyboard One", RSSI := some (-55) },
          BluetoothDevice.from_dbus "/org/bluez/hci0/dev_EE_55"
            { Address := some "EE:55", Name := some "Keyboard Two", RSSI := some (-55) }] := by
    decide
  refine ⟨h.1, h.2.1 ((0 : Int), (0 : Int), (55 : Int)), ?_, by rw [hlist]; decide⟩
  exact h.2.2 _ (by rw [hlist]; exact List.mem_cons_of_mem _ (List.mem_cons_self _ _))

/-- C4 counterexample: with no adapter ever found (`is_available` is
false), `pair_device` is not a no-op — its worker still issues the
trust and pair bus calls and enqueues a pair-failed closure for the
consumer. -/
theorem c4_counterexample :
    isAvailable noAdapterState = false ∧
    (pairDeviceWorker noAdapterState demoDevice envPairErrEmpty).2 ≠ [] ∧
    (pairDeviceWorker noAdapterState demoDevice envPairErrEmpty).1.callback_queue
      ≠ noAdapterState.callback_queue := by
  decide

/-- C4 (amended): while no adapter has ever been found, `start_scan` is
a genuine no-op (no bus call, no state change, no callback); but
`pair_device` does not check availability: its worker still issues the
trust and pair calls and, when `Pair` is rejected, enqueues pair-failed
closures — though the registry stays unchanged. -/
theorem c4_no_adapter (st : BTManagerState) (h : st.adapter_path = none) :
    (∀ ok, startScan st ok = (st, [])) ∧
    (∀ (device : BluetoothDevice) (env : PairEnv) (body : List String),
        env.pairReply = Reply.error body →
        (pairDeviceWorker st device env).2
            = [BusCall.setTrusted device.device_path, BusCall.pairCall device.device_path] ∧
        (pairDeviceWorker st device env).1.callback_queue
            = st.callback_queue
                ++ st.pair_failed.map (fun cb => (cb, CbEvent.pairFailed (errorMessage body))) ∧
        (pairDeviceWorker st device env).1.devices = st.devices) := by
  constructor
  · intro ok
    simp [startScan, h]
  · intro device env body herr
    refine ⟨?_, ?_, ?_⟩
    · simp [pairDeviceWorker, herr]
    · simp [pairDeviceWorker, herr, enqueueCallbacks]
    · simp [pairDeviceWorker, herr]

/-- Witness for the amended C4 at a concrete adapterless manager. -/
theorem c4_no_adapter_witness :
    startScan noAdapterState true = (noAdapterState, []) ∧
    (pairDeviceWorker noAdapterState demoDevice envPairErrEmpty).2
      = [BusCall.setTrusted "/org/bluez/hci0/dev_AA_11",
          BusCall.pairCall "/org/bluez/hci0/dev_AA_11"] ∧
    (pairDeviceWorker noAdapterState demoDevice envPairErrEmpty).1.callback_queue
      = [(0, CbEvent.pairFailed "Unknown error")] := by
  have h := c4_no_adapter noAdapterState rfl
  have h2 := h.2 demoDevice envPairErrEmpty [] rfl
  exact ⟨h.1 true, by simpa [demoDevice] using h2.1,
    by simpa [noAdapterState, errorMessage] using h2.2.1⟩

/-- The code's class-bitfield branch agrees with the spec's bitfield
decode for every class value. -/
theorem classifyByClass_eq_code (device_class : Nat) :
    (let major_class := (device_class >>> 8) &&& 0x1F
      if major_class == 0x05 then
        let minor_class := (device_class >>> 2) &&& 0x3F
        if minor_class == 0x01 || minor_class == 0x02 then DeviceType.CONTROLLER
        else if minor_class == 0x10 then DeviceType.KEYBOARD
        else if minor_class == 0x20 then DeviceType.MOUSE
        else DeviceType.OTHER
      else if major_class == 0x04 then DeviceType.AUDIO
      else DeviceType.OTHER)
    = classifyByClassSpec device_class := by
  unfold classifyByClassSpec
  by_cases h5 : (device_class >>> 8) &&& 0x1F = 0x05
  · simp only [h5]
    norm_num
  · have h5' : ((device_class >>> 8) &&& 0x1F == 0x05) = false := by
      simpa using h5
    simp only [h5', Bool.false_and, if_false, ite_false, Bool.false_eq_true]

set_option maxHeartbeats 1000000 in
/-- C6: the implemented classification equals the spec's procedure —
case-insensitive substring matching against the ordered keyword table
first, then the class-bitfield decode, with Other as the catch-all. -/
theorem c6_classification_matches_spec (device_class : Nat) (name : String) :
    get_device_type device_class name = classifySpec device_class name := by
  unfold get_device_type classifySpec
  cases hc1 : strContains (strLower name) "controller" <;>
    cases hc2 : strContains (strLower name) "gamepad" <;>
    cases hc3 : strContains (strLower name) "dualsense" <;>
    cases hc4 : strContains (strLower name) "dualshock" <;>
    cases hk : strContains (strLower name) "keyboard" <;>
    cases hm : strContains (strLower name) "mouse" <;>
    cases ha1 : strContains (strLower name) "airpods" <;>
    cases ha2 : strContains (strLower name) "headphone" <;>
    cases ha3 : strContains (strLower name) "speaker" <;>
    cases ha4 : strContains (strLower name) "audio" <;>
    simp only [nameKeywordTable, List.find?, List.any_cons, List.any_nil,
      hc1, hc2, hc3, hc4, hk, hm, ha1, ha2, ha3, ha4,
      Bool.or_false, Bool.or_true, Bool.true_or, Bool.false_or,
      Bool.false_eq_true, if_true, if_false, ite_true, ite_false] <;>
    first
      | rfl
      | exact classifyByClass_eq_code device_class
